import Mathlib

/-!
Verification of the funding-rate alert engine (`funding_monitor.py`,
driven by `alert_monitor.py`).

The engine is embedded shallowly: Python dicts become association lists
over `String` keys, funding rates become `ℚ`, millisecond timestamps
become `ℤ`, and wall-clock reads (`datetime.now` truncated to the hour)
become an explicit `nowHour : ℕ` parameter threaded into each check.
Every operation is a pure state transformer on `MonitorState`.
-/

/-- Lookup in an association list (Python `dict.get(key)`), first match. -/
def alGet {α : Type} : List (String × α) → String → Option α
  | [], _ => none
  | (k, v) :: rest, key => if k = key then some v else alGet rest key

/-- Lookup with default (Python `dict.get(key, d)`). -/
def alGetD {α : Type} (l : List (String × α)) (key : String) (d : α) : α :=
  (alGet l key).getD d

/-- Insert-or-update (Python `dict[key] = v`), preserving key order. -/
def alInsert {α : Type} : List (String × α) → String → α → List (String × α)
  | [], key, v => [(key, v)]
  | (k, w) :: rest, key, v =>
      if k = key then (key, v) :: rest else (k, w) :: alInsert rest key v

/-- Deletion (Python `del dict[key]`, a no-op when the key is absent). -/
def alErase {α : Type} : List (String × α) → String → List (String × α)
  | [], _ => []
  | (k, v) :: rest, key =>
      if k = key then alErase rest key else (k, v) :: alErase rest key

/-- The configuration fields of `config.FundingRateConfig` that the alert
engine reads, with the defaults from `config.py`. -/
structure FundingRateConfig where
  fullAlertSymbols : List String := ["BTCUSDT"]
  alertOnSignChange : Bool := true
  alertOnPredictedRates : Bool := true
  predictedRateThreshold : ℚ := 1/1000
  maxAlertsPerHour : Nat := 200
deriving DecidableEq

/-- One entry of the `settlements` argument to `check_settlements`:
the fields read via `settlement.get("fundingRate", 0)` and
`settlement.get("fundingRateTimestamp", 0)`. -/
structure SettlementObs where
  fundingRate : ℚ := 0
  fundingRateTimestamp : Int := 0
deriving DecidableEq

/-- One entry of `ticker_data`: the fields the engine reads, with the
`dict.get` defaults used at each read site (`fundingIntervalHours`
defaults to 8; an absent `prevFundingIntervalHours` falls back to the
funding interval at the read site). -/
structure TickerData where
  fundingRate : ℚ := 0
  fundingIntervalHours : Nat := 8
  prevFundingIntervalHours : Option Nat := none
  lastPrice : ℚ := 0
  volume24h : ℚ := 0
  nextFundingTime : Int := 0
deriving DecidableEq

/-- An alert dictionary as built by `_create_settlement_alert` /
`_create_predicted_alert`. The two display-string fields
(`settlementTime` IST formatting and the `timestamp` isoformat) are kept
as the raw data they are rendered from. -/
structure AlertRecord where
  symbol : String
  fundingRate : ℚ
  prevFundingRate : Option ℚ
  rateChange : Option ℚ
  alertType : String
  lastPrice : ℚ
  settlementTimestamp : Int
  fundingInterval : Nat
  prevFundingInterval : Option Nat
  volume24h : ℚ
deriving DecidableEq

/-- The mutable per-instance state of `FundingRateMonitor`. -/
structure MonitorState where
  lastSettlementTimestamps : List (String × Int) := []
  previousSettlementRates : List (String × ℚ) := []
  alertedPredictedRates : List (String × ℚ) := []
  alertCountThisHour : Nat := 0
  hourStart : Nat := 0
deriving DecidableEq

/-- `FundingRateMonitor._reset_hourly_count_if_needed`: if the current
hour (truncated) has advanced past `hour_start`, zero the counter and
advance the window. -/
def resetHourlyCountIfNeeded (s : MonitorState) (nowHour : Nat) : MonitorState :=
  if s.hourStart < nowHour then
    { s with alertCountThisHour := 0, hourStart := nowHour }
  else s

/-- `FundingRateMonitor._can_send_alert`: reset the window if needed,
then compare the counter against `MAX_ALERTS_PER_HOUR`. Returns the
decision together with the (possibly window-reset) state. -/
def canSendAlert (cfg : FundingRateConfig) (s : MonitorState) (nowHour : Nat) :
    Bool × MonitorState :=
  let s1 := resetHourlyCountIfNeeded s nowHour
  (decide (s1.alertCountThisHour < cfg.maxAlertsPerHour), s1)

/-- `FundingRateMonitor._create_settlement_alert`: only symbols in
`FULL_ALERT_SYMBOLS` get settlement alerts, and only on a sign flip
(when `ALERT_ON_SIGN_CHANGE` is set). -/
def createSettlementAlert (cfg : FundingRateConfig) (symbol : String)
    (currentRate prevRate : ℚ) (settlementTimestamp : Int)
    (ticker : TickerData) : Option AlertRecord :=
  if cfg.fullAlertSymbols.contains symbol = false then none
  else
    let alertType : Option String :=
      if cfg.alertOnSignChange then
        if prevRate > 0 ∧ currentRate < 0 then some "sign_change"
        else if prevRate < 0 ∧ currentRate > 0 then some "sign_change"
        else none
      else none
    match alertType with
    | none => none
    | some t =>
        let fundingInterval := ticker.fundingIntervalHours
        some { symbol := symbol
               fundingRate := currentRate
               prevFundingRate := some prevRate
               rateChange := some (currentRate - prevRate)
               alertType := t
               lastPrice := ticker.lastPrice
               settlementTimestamp := settlementTimestamp
               fundingInterval := fundingInterval
               prevFundingInterval := some (ticker.prevFundingIntervalHours.getD fundingInterval)
               volume24h := ticker.volume24h }

/-- The body of the per-symbol loop of
`FundingRateMonitor.check_settlements` (lines 114–144): skip unless the
settlement timestamp is strictly newer, alert only when a baseline rate
exists and the policy and limiter allow, and unconditionally update the
tracking maps for a new settlement. -/
def processSettlement (cfg : FundingRateConfig) (nowHour : Nat)
    (tickerData : List (String × TickerData)) (symbol : String)
    (settlement : SettlementObs) (s : MonitorState) :
    List AlertRecord × MonitorState :=
  let currentTimestamp := settlement.fundingRateTimestamp
  let currentRate := settlement.fundingRate
  let prevTimestamp := alGetD s.lastSettlementTimestamps symbol 0
  let prevRate := alGet s.previousSettlementRates symbol
  if prevTimestamp < currentTimestamp then
    let step :=
      match prevRate with
      | some pr =>
          match createSettlementAlert cfg symbol currentRate pr currentTimestamp
              (alGetD tickerData symbol {}) with
          | some alert =>
              let can := canSendAlert cfg s nowHour
              if can.1 then
                ([alert], { can.2 with alertCountThisHour := can.2.alertCountThisHour + 1 })
              else ([], can.2)
          | none => ([], s)
      | none => ([], s)
    (step.1, { step.2 with
        lastSettlementTimestamps :=
          alInsert step.2.lastSettlementTimestamps symbol currentTimestamp
        previousSettlementRates :=
          alInsert step.2.previousSettlementRates symbol currentRate })
  else ([], s)

/-- `FundingRateMonitor.check_settlements`: fold `processSettlement`
over the settlements map in order, collecting alerts. -/
def checkSettlements (cfg : FundingRateConfig) (nowHour : Nat)
    (settlements : List (String × SettlementObs))
    (tickerData : List (String × TickerData)) (s : MonitorState) :
    List AlertRecord × MonitorState :=
  match settlements with
  | [] => ([], s)
  | (symbol, settlement) :: rest =>
      let head := processSettlement cfg nowHour tickerData symbol settlement s
      let tail := checkSettlements cfg nowHour rest tickerData head.2
      (head.1 ++ tail.1, tail.2)

/-- `FundingRateMonitor._is_rate_extreme`. -/
def isRateExtreme (rate threshold : ℚ) : Bool :=
  decide (threshold ≤ |rate|)

/-- `FundingRateMonitor._clear_alerted_rate`. -/
def clearAlertedRate (s : MonitorState) (symbol : String) : MonitorState :=
  { s with alertedPredictedRates := alErase s.alertedPredictedRates symbol }

/-- `FundingRateMonitor._rate_flipped_sign`:
`(current_rate > 0) != (prev_rate > 0)`. -/
def rateFlippedSign (currentRate prevRate : ℚ) : Bool :=
  decide (0 < currentRate) != decide (0 < prevRate)

/-- `FundingRateMonitor._rate_changed_significantly` at its default
threshold 0.5: a prior of zero always qualifies. -/
def rateChangedSignificantly (currentRate prevRate : ℚ) : Bool :=
  if prevRate = 0 then true
  else decide ((1 : ℚ)/2 ≤ |currentRate - prevRate| / |prevRate|)

/-- `FundingRateMonitor._should_alert_for_rate`. -/
def shouldAlertForRate (s : MonitorState) (symbol : String) (currentRate : ℚ) : Bool :=
  match alGet s.alertedPredictedRates symbol with
  | none => true
  | some prevAlerted =>
      rateFlippedSign currentRate prevAlerted ||
        rateChangedSignificantly currentRate prevAlerted

/-- `FundingRateMonitor._create_predicted_alert`. -/
def createPredictedAlert (symbol : String) (rate : ℚ) (ticker : TickerData) :
    AlertRecord :=
  { symbol := symbol
    fundingRate := rate
    prevFundingRate := none
    rateChange := none
    alertType := "predicted"
    lastPrice := ticker.lastPrice
    settlementTimestamp := ticker.nextFundingTime
    fundingInterval := ticker.fundingIntervalHours
    prevFundingInterval := none
    volume24h := ticker.volume24h }

/-- The state effect of `FundingRateMonitor._record_alert`: bump the
hourly counter and store the rate as the new cooldown baseline. -/
def recordAlert (s : MonitorState) (symbol : String) (rate : ℚ) : MonitorState :=
  { s with alertCountThisHour := s.alertCountThisHour + 1
           alertedPredictedRates := alInsert s.alertedPredictedRates symbol rate }

/-- The body of the per-symbol loop of
`FundingRateMonitor.check_predicted_rates` (lines 260–279): clear and
skip when not extreme, apply cooldown suppression, apply the rate
limiter, then emit and record. -/
def processPredicted (cfg : FundingRateConfig) (nowHour : Nat) (symbol : String)
    (data : TickerData) (s : MonitorState) : List AlertRecord × MonitorState :=
  let currentRate := data.fundingRate
  if isRateExtreme currentRate cfg.predictedRateThreshold = false then
    ([], clearAlertedRate s symbol)
  else if shouldAlertForRate s symbol currentRate = false then ([], s)
  else
    let can := canSendAlert cfg s nowHour
    if can.1 = false then ([], can.2)
    else
      ([createPredictedAlert symbol currentRate data],
        recordAlert can.2 symbol currentRate)

/-- The per-symbol fold of `check_predicted_rates`. -/
def checkPredictedRatesLoop (cfg : FundingRateConfig) (nowHour : Nat) :
    List (String × TickerData) → MonitorState → List AlertRecord × MonitorState
  | [], s => ([], s)
  | (symbol, data) :: rest, s =>
      let head := processPredicted cfg nowHour symbol data s
      let tail := checkPredictedRatesLoop cfg nowHour rest head.2
      (head.1 ++ tail.1, tail.2)

/-- `FundingRateMonitor.check_predicted_rates`: returns nothing when
`ALERT_ON_PREDICTED_RATES` is off, else folds over the ticker map. -/
def checkPredictedRates (cfg : FundingRateConfig) (nowHour : Nat)
    (tickerData : List (String × TickerData)) (s : MonitorState) :
    List AlertRecord × MonitorState :=
  if cfg.alertOnPredictedRates = false then ([], s)
  else checkPredictedRatesLoop cfg nowHour tickerData s

/-- `FundingRateMonitor.clear_predicted_alerts_after_settlement`. -/
def clearPredictedAlertsAfterSettlement (s : MonitorState) (symbol : String) :
    MonitorState :=
  { s with alertedPredictedRates := alErase s.alertedPredictedRates symbol }

/-- The settlement half of `AlertMonitor._check_funding`
(`alert_monitor.py` lines 131–135): run `check_settlements`, then clear
predicted-alert tracking for exactly the symbols of the returned alert
records. -/
def settlementPhase (cfg : FundingRateConfig) (nowHour : Nat)
    (settlements : List (String × SettlementObs))
    (tickerData : List (String × TickerData)) (s : MonitorState) :
    List AlertRecord × MonitorState :=
  let res := checkSettlements cfg nowHour settlements tickerData s
  (res.1, res.1.foldl (fun st a => clearPredictedAlertsAfterSettlement st a.symbol) res.2)

/-- The on-disk schema written by `FundingRateMonitor._save_state`: only
the `"timestamps"` and `"rates"` maps (the `"last_updated"` string is
display metadata). -/
structure StateFile where
  timestamps : List (String × Int)
  rates : List (String × ℚ)
deriving DecidableEq

/-- `FundingRateMonitor._save_state` as a pure projection of the state. -/
def saveState (s : MonitorState) : StateFile :=
  { timestamps := s.lastSettlementTimestamps
    rates := s.previousSettlementRates }

/-- The in-memory state set up by `FundingRateMonitor.__init__` before
`_load_state` runs: all maps empty, counter zero, window at the current
hour. -/
def initialState (nowHour : Nat) : MonitorState :=
  { lastSettlementTimestamps := []
    previousSettlementRates := []
    alertedPredictedRates := []
    alertCountThisHour := 0
    hourStart := nowHour }

/-- `FundingRateMonitor._load_state` applied to an existing, well-formed
state file: it restores `state.get("timestamps", {})` and
`state.get("rates", {})` and touches nothing else. -/
def loadState (s : MonitorState) (f : StateFile) : MonitorState :=
  { s with lastSettlementTimestamps := f.timestamps
           previousSettlementRates := f.rates }

/-- A freshly constructed `FundingRateMonitor` that loads the given
state file: `__init__` state followed by `_load_state`. -/
def newMonitor (nowHour : Nat) (f : StateFile) : MonitorState :=
  loadState (initialState nowHour) f

/-! ### Association-list lemmas -/

theorem alGet_alInsert {α : Type} (l : List (String × α)) (k k' : String) (v : α) :
    alGet (alInsert l k v) k' = if k = k' then some v else alGet l k' := by
  induction l with
  | nil => by_cases h : k = k' <;> simp [alInsert, alGet, h]
  | cons hd tl ih =>
      obtain ⟨k0, v0⟩ := hd
      by_cases h0 : k0 = k
      · by_cases h : k = k' <;> simp [alInsert, alGet, h0, h]
      · by_cases h : k0 = k'
        · subst h
          have : ¬ k = k0 := fun hh => h0 hh.symm
          simp [alInsert, alGet, h0, this]
        · simp [alInsert, alGet, h0, h, ih]

theorem alGet_alErase {α : Type} (l : List (String × α)) (k k' : String) :
    alGet (alErase l k) k' = if k = k' then none else alGet l k' := by
  induction l with
  | nil => by_cases h : k = k' <;> simp [alErase, alGet, h]
  | cons hd tl ih =>
      obtain ⟨k0, v0⟩ := hd
      by_cases h0 : k0 = k
      · subst h0
        by_cases h : k0 = k'
        · subst h
          simp [alErase, ih]
        · simp [alErase, alGet, h, ih]
      · by_cases h : k0 = k'
        · subst h
          have : ¬ k = k0 := fun hh => h0 hh.symm
          simp [alErase, alGet, h0, this, alGet]
        · simp [alErase, alGet, h0, h, ih]

/-! ### Per-step characterizations of the settlement loop -/

theorem processSettlement_alerted_frame (cfg : FundingRateConfig) (nowHour : Nat)
    (td : List (String × TickerData)) (sym : String) (obs : SettlementObs)
    (s : MonitorState) :
    (processSettlement cfg nowHour td sym obs s).2.alertedPredictedRates =
      s.alertedPredictedRates := by
  simp only [processSettlement, canSendAlert, resetHourlyCountIfNeeded]
  repeat' split
  all_goals rfl

theorem processSettlement_timestamps_eq (cfg : FundingRateConfig) (nowHour : Nat)
    (td : List (String × TickerData)) (sym : String) (obs : SettlementObs)
    (s : MonitorState) :
    (processSettlement cfg nowHour td sym obs s).2.lastSettlementTimestamps =
      if alGetD s.lastSettlementTimestamps sym 0 < obs.fundingRateTimestamp then
        alInsert s.lastSettlementTimestamps sym obs.fundingRateTimestamp
      else s.lastSettlementTimestamps := by
  simp only [processSettlement, canSendAlert, resetHourlyCountIfNeeded]
  repeat' split
  all_goals rfl

theorem processSettlement_rates_eq (cfg : FundingRateConfig) (nowHour : Nat)
    (td : List (String × TickerData)) (sym : String) (obs : SettlementObs)
    (s : MonitorState) :
    (processSettlement cfg nowHour td sym obs s).2.previousSettlementRates =
      if alGetD s.lastSettlementTimestamps sym 0 < obs.fundingRateTimestamp then
        alInsert s.previousSettlementRates sym obs.fundingRate
      else s.previousSettlementRates := by
  simp only [processSettlement, canSendAlert, resetHourlyCountIfNeeded]
  repeat' split
  all_goals rfl

theorem createSettlementAlert_some (cfg : FundingRateConfig) (sym : String)
    (cur prev : ℚ) (ts : Int) (tk : TickerData) (a : AlertRecord)
    (h : createSettlementAlert cfg sym cur prev ts tk = some a) :
    sym ∈ cfg.fullAlertSymbols ∧ a.symbol = sym := by
  revert h
  simp only [createSettlementAlert]
  repeat' split
  all_goals intro h
  all_goals simp_all
  all_goals simp [← h]

theorem processSettlement_alerts (cfg : FundingRateConfig) (nowHour : Nat)
    (td : List (String × TickerData)) (sym : String) (obs : SettlementObs)
    (s : MonitorState) (a : AlertRecord)
    (ha : a ∈ (processSettlement cfg nowHour td sym obs s).1) :
    a.symbol ∈ cfg.fullAlertSymbols := by
  revert ha
  simp only [processSettlement]
  repeat' split
  all_goals intro ha
  all_goals simp_all
  rename_i pr hpr x alert halert hcan
  have h2 := createSettlementAlert_some cfg sym obs.fundingRate pr
    obs.fundingRateTimestamp _ alert halert
  rw [h2.2]
  exact h2.1

/-! ### Loop-level lemmas for `checkSettlements` -/

theorem checkSettlements_alerted_frame (cfg : FundingRateConfig) (nowHour : Nat)
    (settlements : List (String × SettlementObs))
    (td : List (String × TickerData)) (s : MonitorState) :
    (checkSettlements cfg nowHour settlements td s).2.alertedPredictedRates =
      s.alertedPredictedRates := by
  induction settlements generalizing s with
  | nil => rfl
  | cons hd tl ih =>
      obtain ⟨sym, obs⟩ := hd
      simp only [checkSettlements]
      rw [ih, processSettlement_alerted_frame]

theorem processSettlement_ts_mono (cfg : FundingRateConfig) (nowHour : Nat)
    (td : List (String × TickerData)) (sym : String) (obs : SettlementObs)
    (s : MonitorState) (k : String) :
    alGetD s.lastSettlementTimestamps k 0 ≤
      alGetD (processSettlement cfg nowHour td sym obs s).2.lastSettlementTimestamps k 0 := by
  rw [processSettlement_timestamps_eq]
  split
  · rename_i hlt
    unfold alGetD
    rw [alGet_alInsert]
    by_cases hk : sym = k
    · subst hk
      simp only [if_pos rfl, Option.getD_some]
      exact le_of_lt hlt
    · rw [if_neg hk]
  · exact le_refl _

theorem checkSettlements_ts_mono (cfg : FundingRateConfig) (nowHour : Nat)
    (settlements : List (String × SettlementObs))
    (td : List (String × TickerData)) (s : MonitorState) (k : String) :
    alGetD s.lastSettlementTimestamps k 0 ≤
      alGetD (checkSettlements cfg nowHour settlements td s).2.lastSettlementTimestamps k 0 := by
  induction settlements generalizing s with
  | nil => exact le_refl _
  | cons hd tl ih =>
      obtain ⟨sym, obs⟩ := hd
      simp only [checkSettlements]
      exact le_trans (processSettlement_ts_mono cfg nowHour td sym obs s k) (ih _)

theorem checkSettlements_alerts (cfg : FundingRateConfig) (nowHour : Nat)
    (settlements : List (String × SettlementObs))
    (td : List (String × TickerData)) (s : MonitorState) (a : AlertRecord)
    (ha : a ∈ (checkSettlements cfg nowHour settlements td s).1) :
    a.symbol ∈ cfg.fullAlertSymbols := by
  induction settlements generalizing s with
  | nil => simp [checkSettlements] at ha
  | cons hd tl ih =>
      obtain ⟨sym, obs⟩ := hd
      simp only [checkSettlements, List.mem_append] at ha
      rcases ha with ha | ha
      · exact processSettlement_alerts cfg nowHour td sym obs s a ha
      · exact ih _ ha

/-! ### Frame lemmas for the predicted-rate loop -/

theorem processPredicted_settlement_frame (cfg : FundingRateConfig) (nowHour : Nat)
    (sym : String) (data : TickerData) (s : MonitorState) :
    (processPredicted cfg nowHour sym data s).2.lastSettlementTimestamps =
        s.lastSettlementTimestamps ∧
      (processPredicted cfg nowHour sym data s).2.previousSettlementRates =
        s.previousSettlementRates := by
  simp only [processPredicted, clearAlertedRate, recordAlert, canSendAlert,
    resetHourlyCountIfNeeded]
  repeat' split
  all_goals exact ⟨rfl, rfl⟩

theorem checkPredictedRatesLoop_settlement_frame (cfg : FundingRateConfig)
    (nowHour : Nat) (td : List (String × TickerData)) (s : MonitorState) :
    (checkPredictedRatesLoop cfg nowHour td s).2.lastSettlementTimestamps =
        s.lastSettlementTimestamps ∧
      (checkPredictedRatesLoop cfg nowHour td s).2.previousSettlementRates =
        s.previousSettlementRates := by
  induction td generalizing s with
  | nil => exact ⟨rfl, rfl⟩
  | cons hd tl ih =>
      obtain ⟨sym, data⟩ := hd
      simp only [checkPredictedRatesLoop]
      obtain ⟨h1, h2⟩ := processPredicted_settlement_frame cfg nowHour sym data s
      obtain ⟨h3, h4⟩ := ih (processPredicted cfg nowHour sym data s).2
      exact ⟨h3.trans h1, h4.trans h2⟩

theorem checkPredictedRates_settlement_frame (cfg : FundingRateConfig)
    (nowHour : Nat) (td : List (String × TickerData)) (s : MonitorState) :
    (checkPredictedRates cfg nowHour td s).2.lastSettlementTimestamps =
        s.lastSettlementTimestamps ∧
      (checkPredictedRates cfg nowHour td s).2.previousSettlementRates =
        s.previousSettlementRates := by
  unfold checkPredictedRates
  split
  · exact ⟨rfl, rfl⟩
  · exact checkPredictedRatesLoop_settlement_frame cfg nowHour td s

/-! ### Per-symbol lemmas for the predicted-rate loop -/

theorem processPredicted_alerted_other (cfg : FundingRateConfig) (nowHour : Nat)
    (sym : String) (data : TickerData) (s : MonitorState) (k : String)
    (hk : sym ≠ k) :
    alGet (processPredicted cfg nowHour sym data s).2.alertedPredictedRates k =
      alGet s.alertedPredictedRates k := by
  simp only [processPredicted, clearAlertedRate, recordAlert, canSendAlert,
    resetHourlyCountIfNeeded]
  repeat' split
  all_goals simp [alGet_alErase, alGet_alInsert, hk]

theorem processPredicted_alerts_symbol (cfg : FundingRateConfig) (nowHour : Nat)
    (sym : String) (data : TickerData) (s : MonitorState) (a : AlertRecord)
    (ha : a ∈ (processPredicted cfg nowHour sym data s).1) : a.symbol = sym := by
  revert ha
  simp only [processPredicted, createPredictedAlert]
  repeat' split
  all_goals intro ha
  all_goals simp_all

theorem processPredicted_nonextreme (cfg : FundingRateConfig) (nowHour : Nat)
    (sym : String) (data : TickerData) (s : MonitorState)
    (h : isRateExtreme data.fundingRate cfg.predictedRateThreshold = false) :
    processPredicted cfg nowHour sym data s = ([], clearAlertedRate s sym) := by
  simp [processPredicted, h]

theorem checkPredictedRatesLoop_alerted_notmem (cfg : FundingRateConfig)
    (nowHour : Nat) (td : List (String × TickerData)) (s : MonitorState)
    (sym : String) (hmem : sym ∉ td.map Prod.fst) :
    alGet (checkPredictedRatesLoop cfg nowHour td s).2.alertedPredictedRates sym =
        alGet s.alertedPredictedRates sym ∧
      ∀ a ∈ (checkPredictedRatesLoop cfg nowHour td s).1, a.symbol ≠ sym := by
  induction td generalizing s with
  | nil => exact ⟨rfl, by intro a ha; simp [checkPredictedRatesLoop] at ha⟩
  | cons hd tl ih =>
      obtain ⟨k, d⟩ := hd
      simp only [List.map_cons, List.mem_cons, not_or] at hmem
      obtain ⟨hk, htl⟩ := hmem
      simp only [checkPredictedRatesLoop]
      obtain ⟨ih1, ih2⟩ := ih (processPredicted cfg nowHour k d s).2 htl
      constructor
      · rw [ih1]
        exact processPredicted_alerted_other cfg nowHour k d s sym
          (fun h => hk (h ▸ rfl))
      · intro a ha
        simp only [List.mem_append] at ha
        rcases ha with ha | ha
        · rw [processPredicted_alerts_symbol cfg nowHour k d s a ha]
          exact fun h => hk h.symm
        · exact ih2 a ha

theorem processSettlement_nobaseline_alerts (cfg : FundingRateConfig)
    (nowHour : Nat) (td : List (String × TickerData)) (sym : String)
    (obs : SettlementObs) (s : MonitorState)
    (hbase : alGet s.previousSettlementRates sym = none) :
    (processSettlement cfg nowHour td sym obs s).1 = [] := by
  simp only [processSettlement, hbase]
  split <;> rfl

/-! ### Claim theorems -/

/-- C10: the two check operations each touch only their own sub-state:
`checkPredictedRates` leaves `lastSettlementTimestamps` and
`previousSettlementRates` unchanged, and `checkSettlements` leaves
`alertedPredictedRates` unchanged. -/
theorem claim_C10 (cfg : FundingRateConfig) (nowHour : Nat)
    (settlements : List (String × SettlementObs))
    (td : List (String × TickerData)) (s : MonitorState) :
    (checkPredictedRates cfg nowHour td s).2.lastSettlementTimestamps =
        s.lastSettlementTimestamps ∧
      (checkPredictedRates cfg nowHour td s).2.previousSettlementRates =
        s.previousSettlementRates ∧
      (checkSettlements cfg nowHour settlements td s).2.alertedPredictedRates =
        s.alertedPredictedRates :=
  ⟨(checkPredictedRates_settlement_frame cfg nowHour td s).1,
   (checkPredictedRates_settlement_frame cfg nowHour td s).2,
   checkSettlements_alerted_frame cfg nowHour settlements td s⟩

/-- C2: a symbol outside the configured full-alert set never appears in
the alerts returned by `checkSettlements`, for any state, rates or
settlement data. -/
theorem claim_C2 (cfg : FundingRateConfig) (nowHour : Nat)
    (settlements : List (String × SettlementObs))
    (td : List (String × TickerData)) (s : MonitorState) (sym : String)
    (hsym : sym ∉ cfg.fullAlertSymbols) :
    ∀ a ∈ (checkSettlements cfg nowHour settlements td s).1, a.symbol ≠ sym := by
  intro a ha heq
  exact hsym (heq ▸ checkSettlements_alerts cfg nowHour settlements td s a ha)

/-- C2 witness: a non-full-alert symbol with a stored baseline and a
sign-flipping new settlement still yields no settlement alert. -/
theorem claim_C2_witness :
    "ETHUSDT" ∉ ({} : FundingRateConfig).fullAlertSymbols ∧
      ∀ a ∈ (checkSettlements {} 0
          [("ETHUSDT", { fundingRate := -1/1000, fundingRateTimestamp := 200 })] []
          { lastSettlementTimestamps := [("ETHUSDT", 100)]
            previousSettlementRates := [("ETHUSDT", 1/1000)]
            alertedPredictedRates := []
            alertCountThisHour := 0
            hourStart := 0 }).1, a.symbol ≠ "ETHUSDT" :=
  ⟨by decide,
   claim_C2 {} 0
     [("ETHUSDT", { fundingRate := -1/1000, fundingRateTimestamp := 200 })] []
     { lastSettlementTimestamps := [("ETHUSDT", 100)]
       previousSettlementRates := [("ETHUSDT", 1/1000)]
       alertedPredictedRates := []
       alertCountThisHour := 0
       hourStart := 0 } "ETHUSDT" (by decide)⟩

/-- Explicit closed form of `createSettlementAlert` for a full-alert
symbol with the sign-change rule enabled. -/
theorem createSettlementAlert_eq (cfg : FundingRateConfig) (sym : String)
    (cur prev : ℚ) (ts : Int) (tk : TickerData)
    (hc : cfg.fullAlertSymbols.contains sym = true)
    (hsc : cfg.alertOnSignChange = true) :
    createSettlementAlert cfg sym cur prev ts tk =
      if (prev > 0 ∧ cur < 0) ∨ (prev < 0 ∧ cur > 0) then
        some { symbol := sym
               fundingRate := cur
               prevFundingRate := some prev
               rateChange := some (cur - prev)
               alertType := "sign_change"
               lastPrice := tk.lastPrice
               settlementTimestamp := ts
               fundingInterval := tk.fundingIntervalHours
               prevFundingInterval :=
                 some (tk.prevFundingIntervalHours.getD tk.fundingIntervalHours)
               volume24h := tk.volume24h }
      else none := by
  simp only [createSettlementAlert, hc, hsc, Bool.true_eq_false, if_false, if_true]
  by_cases h1 : prev > 0 ∧ cur < 0
  · rw [if_pos h1, if_pos (Or.inl h1)]
  · by_cases h2 : prev < 0 ∧ cur > 0
    · rw [if_neg h1, if_pos h2, if_pos (Or.inr h2)]
    · rw [if_neg h1, if_neg h2, if_neg (fun h => h.elim h1 h2)]

/-- C3: for a full-alert symbol with a stored baseline (and the
sign-change rule enabled, as in the default config), a strictly
opposite-signed new rate produces exactly one settlement alert and its
type is `sign_change`; any same-sign or zero-involving transition
produces none. -/
theorem claim_C3 (cfg : FundingRateConfig) (sym : String) (cur prev : ℚ)
    (ts : Int) (tk : TickerData)
    (hfull : sym ∈ cfg.fullAlertSymbols) (hsc : cfg.alertOnSignChange = true) :
    ((prev > 0 ∧ cur < 0) ∨ (prev < 0 ∧ cur > 0) →
        ∃ a, createSettlementAlert cfg sym cur prev ts tk = some a ∧
          a.alertType = "sign_change") ∧
      (¬ ((prev > 0 ∧ cur < 0) ∨ (prev < 0 ∧ cur > 0)) →
        createSettlementAlert cfg sym cur prev ts tk = none) := by
  have hc : cfg.fullAlertSymbols.contains sym = true := by simpa using hfull
  constructor
  · intro hflip
    rw [createSettlementAlert_eq cfg sym cur prev ts tk hc hsc, if_pos hflip]
    exact ⟨_, rfl, rfl⟩
  · intro hnone
    rw [createSettlementAlert_eq cfg sym cur prev ts tk hc hsc, if_neg hnone]

/-- C3 witness: the spec's two examples, baseline +0.0006 → new −0.0002
and baseline −0.0003 → new +0.0001, each yield one sign-change alert
under the default configuration. -/
theorem claim_C3_witness :
    (∃ a, createSettlementAlert {} "BTCUSDT" (mkRat (-2) 10000) (mkRat 6 10000)
          100 {} = some a ∧ a.alertType = "sign_change") ∧
      ∃ a, createSettlementAlert {} "BTCUSDT" (mkRat 1 10000) (mkRat (-3) 10000)
          100 {} = some a ∧ a.alertType = "sign_change" :=
  ⟨(claim_C3 {} "BTCUSDT" (mkRat (-2) 10000) (mkRat 6 10000) 100 {}
        (by decide) rfl).1 (Or.inl ⟨by decide, by decide⟩),
   (claim_C3 {} "BTCUSDT" (mkRat 1 10000) (mkRat (-3) 10000) 100 {}
        (by decide) rfl).1 (Or.inr ⟨by decide, by decide⟩)⟩

/-- C4: a first-ever settlement (no stored baseline rate) yields no
alert for that symbol but records the observed timestamp and rate as the
new baseline. -/
theorem claim_C4 (cfg : FundingRateConfig) (nowHour : Nat)
    (td : List (String × TickerData)) (sym : String) (obs : SettlementObs)
    (s : MonitorState)
    (hbase : alGet s.previousSettlementRates sym = none)
    (hnew : alGetD s.lastSettlementTimestamps sym 0 < obs.fundingRateTimestamp) :
    (checkSettlements cfg nowHour [(sym, obs)] td s).1 = [] ∧
      alGet (checkSettlements cfg nowHour [(sym, obs)] td s).2.lastSettlementTimestamps
          sym = some obs.fundingRateTimestamp ∧
      alGet (checkSettlements cfg nowHour [(sym, obs)] td s).2.previousSettlementRates
          sym = some obs.fundingRate := by
  simp only [checkSettlements]
  refine ⟨?_, ?_, ?_⟩
  · simp [processSettlement_nobaseline_alerts cfg nowHour td sym obs s hbase]
  · rw [processSettlement_timestamps_eq, if_pos hnew, alGet_alInsert, if_pos rfl]
  · rw [processSettlement_rates_eq, if_pos hnew, alGet_alInsert, if_pos rfl]

/-- C4 witness: the first observation of a fresh symbol, at an extreme
rate, produces no alert but is recorded. -/
theorem claim_C4_witness :
    (checkSettlements {} 0 [("SOLUSDT", { fundingRate := 5/100, fundingRateTimestamp := 100 })]
        [] {}).1 = [] ∧
      alGet (checkSettlements {} 0
          [("SOLUSDT", { fundingRate := 5/100, fundingRateTimestamp := 100 })] []
          {}).2.lastSettlementTimestamps "SOLUSDT" = some 100 ∧
      alGet (checkSettlements {} 0
          [("SOLUSDT", { fundingRate := 5/100, fundingRateTimestamp := 100 })] []
          {}).2.previousSettlementRates "SOLUSDT" = some (5/100) :=
  claim_C4 {} 0 [] "SOLUSDT" { fundingRate := 5/100, fundingRateTimestamp := 100 } {}
    (by decide) (by decide)

/-- C5: one `checkSettlements` call never decreases a symbol's stored
settlement timestamp, and a single observation that is not strictly
newer than the stored timestamp is skipped, changing nothing. -/
theorem claim_C5 (cfg : FundingRateConfig) (nowHour : Nat)
    (settlements : List (String × SettlementObs))
    (td : List (String × TickerData)) (s : MonitorState) (sym : String)
    (obs : SettlementObs) :
    alGetD s.lastSettlementTimestamps sym 0 ≤
        alGetD (checkSettlements cfg nowHour settlements td
          s).2.lastSettlementTimestamps sym 0 ∧
      (obs.fundingRateTimestamp ≤ alGetD s.lastSettlementTimestamps sym 0 →
        checkSettlements cfg nowHour [(sym, obs)] td s = ([], s)) := by
  constructor
  · exact checkSettlements_ts_mono cfg nowHour settlements td s sym
  · intro hle
    have hstep : processSettlement cfg nowHour td sym obs s = ([], s) := by
      simp only [processSettlement]
      rw [if_neg (not_lt.mpr hle)]
    simp [checkSettlements, hstep]

/-- C5 witness: a stale duplicate observation (timestamp 100, already
stored) is skipped with no state change. -/
theorem claim_C5_witness :
    alGetD (MonitorState.mk [("BTCUSDT", 100)] [("BTCUSDT", 2)] [] 0
        0).lastSettlementTimestamps "BTCUSDT" 0 ≤
      alGetD (checkSettlements {} 0 [("BTCUSDT", SettlementObs.mk (-1) 100)] []
        (MonitorState.mk [("BTCUSDT", 100)] [("BTCUSDT", 2)] [] 0
          0)).2.lastSettlementTimestamps "BTCUSDT" 0 ∧
    checkSettlements {} 0 [("BTCUSDT", SettlementObs.mk (-1) 100)] []
        (MonitorState.mk [("BTCUSDT", 100)] [("BTCUSDT", 2)] [] 0 0) =
      ([], MonitorState.mk [("BTCUSDT", 100)] [("BTCUSDT", 2)] [] 0 0) :=
  ⟨(claim_C5 {} 0 [("BTCUSDT", SettlementObs.mk (-1) 100)] []
      (MonitorState.mk [("BTCUSDT", 100)] [("BTCUSDT", 2)] [] 0 0) "BTCUSDT"
      (SettlementObs.mk (-1) 100)).1,
   (claim_C5 {} 0 [("BTCUSDT", SettlementObs.mk (-1) 100)] []
      (MonitorState.mk [("BTCUSDT", 100)] [("BTCUSDT", 2)] [] 0 0) "BTCUSDT"
      (SettlementObs.mk (-1) 100)).2 (by decide)⟩

theorem checkPredictedRatesLoop_clears (cfg : FundingRateConfig) (nowHour : Nat)
    (td : List (String × TickerData)) (s : MonitorState) (sym : String)
    (data : TickerData) (hmem : (sym, data) ∈ td)
    (hnodup : (td.map Prod.fst).Nodup)
    (hext : isRateExtreme data.fundingRate cfg.predictedRateThreshold = false) :
    alGet (checkPredictedRatesLoop cfg nowHour td s).2.alertedPredictedRates sym =
        none ∧
      ∀ a ∈ (checkPredictedRatesLoop cfg nowHour td s).1, a.symbol ≠ sym := by
  induction td generalizing s with
  | nil => simp at hmem
  | cons hd tl ih =>
      obtain ⟨k, d⟩ := hd
      simp only [List.map_cons, List.nodup_cons] at hnodup
      obtain ⟨hknotin, htlnodup⟩ := hnodup
      simp only [checkPredictedRatesLoop]
      rcases List.mem_cons.mp hmem with heq | hmem'
      · obtain ⟨rfl, rfl⟩ := Prod.mk.injEq .. ▸ heq
        rw [processPredicted_nonextreme cfg nowHour sym data s hext]
        have hnot : sym ∉ tl.map Prod.fst := hknotin
        obtain ⟨h1, h2⟩ := checkPredictedRatesLoop_alerted_notmem cfg nowHour tl
          (clearAlertedRate s sym) sym hnot
        refine ⟨?_, ?_⟩
        · rw [h1]
          simp [clearAlertedRate, alGet_alErase]
        · intro a ha
          simp only [List.nil_append] at ha
          exact h2 a ha
      · have hksym : k ≠ sym := by
          intro hk
          exact hknotin (hk ▸ (List.mem_map.mpr ⟨(sym, data), hmem', rfl⟩))
        obtain ⟨ih1, ih2⟩ := ih (processPredicted cfg nowHour k d s).2 hmem' htlnodup
        refine ⟨ih1, ?_⟩
        intro a ha
        rcases List.mem_append.mp ha with ha | ha
        · rw [processPredicted_alerts_symbol cfg nowHour k d s a ha]
          exact hksym
        · exact ih2 a ha

/-- C6: with predicted-rate alerting enabled, a symbol whose predicted
rate is below the extreme threshold has its cooldown-tracking entry
removed by `checkPredictedRates`, receives no alert in that call, and a
later extreme excursion is evaluated as first-time-extreme. -/
theorem claim_C6 (cfg : FundingRateConfig) (nowHour : Nat)
    (td : List (String × TickerData)) (s : MonitorState) (sym : String)
    (data : TickerData)
    (hon : cfg.alertOnPredictedRates = true)
    (hmem : (sym, data) ∈ td)
    (hnodup : (td.map Prod.fst).Nodup)
    (hext : isRateExtreme data.fundingRate cfg.predictedRateThreshold = false) :
    alGet (checkPredictedRates cfg nowHour td s).2.alertedPredictedRates sym =
        none ∧
      (∀ a ∈ (checkPredictedRates cfg nowHour td s).1, a.symbol ≠ sym) ∧
      ∀ r, shouldAlertForRate (checkPredictedRates cfg nowHour td s).2 sym r =
        true := by
  have hcpr : checkPredictedRates cfg nowHour td s =
      checkPredictedRatesLoop cfg nowHour td s := by
    unfold checkPredictedRates
    rw [if_neg (by simp [hon])]
  rw [hcpr]
  obtain ⟨h1, h2⟩ :=
    checkPredictedRatesLoop_clears cfg nowHour td s sym data hmem hnodup hext
  refine ⟨h1, h2, ?_⟩
  intro r
  unfold shouldAlertForRate
  rw [h1]

/-- C6 witness: with threshold 2, a symbol previously in cooldown at
rate 3 whose current predicted rate is 1 (not extreme) gets its cooldown
entry cleared, no alert, and full re-alert eligibility. -/
theorem claim_C6_witness :
    alGet (checkPredictedRates (FundingRateConfig.mk ["BTCUSDT"] true true 2 200) 0
        [("ETHUSDT", TickerData.mk 1 8 none 0 0 0)]
        (MonitorState.mk [] [] [("ETHUSDT", 3)] 0
          0)).2.alertedPredictedRates "ETHUSDT" = none ∧
      (∀ a ∈ (checkPredictedRates (FundingRateConfig.mk ["BTCUSDT"] true true 2 200) 0
          [("ETHUSDT", TickerData.mk 1 8 none 0 0 0)]
          (MonitorState.mk [] [] [("ETHUSDT", 3)] 0 0)).1,
        a.symbol ≠ "ETHUSDT") ∧
      ∀ r, shouldAlertForRate
          (checkPredictedRates (FundingRateConfig.mk ["BTCUSDT"] true true 2 200) 0
            [("ETHUSDT", TickerData.mk 1 8 none 0 0 0)]
            (MonitorState.mk [] [] [("ETHUSDT", 3)] 0 0)).2 "ETHUSDT" r = true :=
  claim_C6 (FundingRateConfig.mk ["BTCUSDT"] true true 2 200) 0
    [("ETHUSDT", TickerData.mk 1 8 none 0 0 0)]
    (MonitorState.mk [] [] [("ETHUSDT", 3)] 0 0) "ETHUSDT"
    (TickerData.mk 1 8 none 0 0 0) rfl (by decide) (by decide) (by decide)

theorem flip_or_sig_iff (cur prev : ℚ) :
    (rateFlippedSign cur prev || rateChangedSignificantly cur prev) = true ↔
      (0 < cur ∧ prev < 0) ∨ (cur < 0 ∧ 0 < prev) ∨ prev = 0 ∨
        (1 : ℚ)/2 ≤ |cur - prev| / |prev| := by
  rw [Bool.or_eq_true]
  constructor
  · intro hor
    rcases hor with hf | hs
    · rw [rateFlippedSign, bne_iff_ne, ne_eq, decide_eq_decide] at hf
      by_cases hc : 0 < cur
      · have hp : ¬ 0 < prev := fun hp => hf ⟨fun _ => hp, fun _ => hc⟩
        rcases lt_trichotomy prev 0 with h1 | h1 | h1
        · exact Or.inl ⟨hc, h1⟩
        · exact Or.inr (Or.inr (Or.inl h1))
        · exact absurd h1 hp
      · have hp : 0 < prev := by
          by_contra hp
          exact hf ⟨fun hh => absurd hh hc, fun hh => absurd hh hp⟩
        rcases lt_trichotomy cur 0 with h1 | h1 | h1
        · exact Or.inr (Or.inl ⟨h1, hp⟩)
        · refine Or.inr (Or.inr (Or.inr ?_))
          rw [h1, zero_sub, abs_neg, div_self (abs_ne_zero.mpr (ne_of_gt hp))]
          norm_num
        · exact absurd h1 hc
    · rw [rateChangedSignificantly] at hs
      by_cases hp : prev = 0
      · exact Or.inr (Or.inr (Or.inl hp))
      · rw [if_neg hp, decide_eq_true_eq] at hs
        exact Or.inr (Or.inr (Or.inr hs))
  · intro hor
    rcases hor with ⟨hc, hp⟩ | ⟨hc, hp⟩ | hp | hd
    · left
      rw [rateFlippedSign, bne_iff_ne, ne_eq, decide_eq_decide]
      intro hiff
      exact absurd (hiff.mp hc) (not_lt.mpr (le_of_lt hp))
    · left
      rw [rateFlippedSign, bne_iff_ne, ne_eq, decide_eq_decide]
      intro hiff
      exact absurd (hiff.mpr hp) (not_lt.mpr (le_of_lt hc))
    · right
      rw [rateChangedSignificantly, if_pos hp]
    · right
      rw [rateChangedSignificantly]
      by_cases hp : prev = 0
      · rw [if_pos hp]
      · rw [if_neg hp, decide_eq_true_eq]
        exact hd

/-- C7: for the cooldown decision of `checkPredictedRates`, the engine
alerts exactly when there is no tracked prior rate, or the current rate
has the strictly opposite sign of the prior, or the prior is zero, or
the relative move `abs(current - prior) / abs(prior)` is at least 1/2;
in every other case the alert is suppressed. -/
theorem claim_C7 (s : MonitorState) (sym : String) (cur : ℚ) :
    shouldAlertForRate s sym cur = true ↔
      alGet s.alertedPredictedRates sym = none ∨
        ∃ prev, alGet s.alertedPredictedRates sym = some prev ∧
          ((0 < cur ∧ prev < 0) ∨ (cur < 0 ∧ 0 < prev) ∨ prev = 0 ∨
            (1 : ℚ)/2 ≤ |cur - prev| / |prev|) := by
  unfold shouldAlertForRate
  rcases h : alGet s.alertedPredictedRates sym with _ | prev
  · simp
  · rw [flip_or_sig_iff]
    constructor
    · intro hp
      exact Or.inr ⟨prev, rfl, hp⟩
    · rintro (hnone | ⟨p, hp, hcase⟩)
      · exact absurd hnone (Option.some_ne_none prev)
      · obtain rfl := (Option.some.inj hp).symm
        exact hcase

theorem canSendAlert_map_frame (cfg : FundingRateConfig) (s : MonitorState)
    (nowHour : Nat) :
    (canSendAlert cfg s nowHour).2.lastSettlementTimestamps =
        s.lastSettlementTimestamps ∧
      (canSendAlert cfg s nowHour).2.previousSettlementRates =
        s.previousSettlementRates := by
  unfold canSendAlert resetHourlyCountIfNeeded
  split <;> exact ⟨rfl, rfl⟩

theorem processSettlement_denied (cfg : FundingRateConfig) (nowHour : Nat)
    (td : List (String × TickerData)) (sym : String) (obs : SettlementObs)
    (s : MonitorState) (prev : ℚ) (a : AlertRecord)
    (hbase : alGet s.previousSettlementRates sym = some prev)
    (hts : alGetD s.lastSettlementTimestamps sym 0 < obs.fundingRateTimestamp)
    (hca : createSettlementAlert cfg sym obs.fundingRate prev
      obs.fundingRateTimestamp (alGetD td sym {}) = some a)
    (hden : (canSendAlert cfg s nowHour).1 = false) :
    processSettlement cfg nowHour td sym obs s =
      ([], { (canSendAlert cfg s nowHour).2 with
             lastSettlementTimestamps :=
               alInsert s.lastSettlementTimestamps sym obs.fundingRateTimestamp
             previousSettlementRates :=
               alInsert s.previousSettlementRates sym obs.fundingRate }) := by
  obtain ⟨hf1, hf2⟩ := canSendAlert_map_frame cfg s nowHour
  simp only [processSettlement, hbase, hca, hden]
  rw [if_pos hts]
  simp [hf1, hf2]

theorem processSettlement_granted (cfg : FundingRateConfig) (nowHour : Nat)
    (td : List (String × TickerData)) (sym : String) (obs : SettlementObs)
    (s : MonitorState) (prev : ℚ) (a : AlertRecord)
    (hbase : alGet s.previousSettlementRates sym = some prev)
    (hts : alGetD s.lastSettlementTimestamps sym 0 < obs.fundingRateTimestamp)
    (hca : createSettlementAlert cfg sym obs.fundingRate prev
      obs.fundingRateTimestamp (alGetD td sym {}) = some a)
    (hok : (canSendAlert cfg s nowHour).1 = true) :
    processSettlement cfg nowHour td sym obs s =
      ([a], { (canSendAlert cfg s nowHour).2 with
              alertCountThisHour :=
                (canSendAlert cfg s nowHour).2.alertCountThisHour + 1
              lastSettlementTimestamps :=
                alInsert s.lastSettlementTimestamps sym obs.fundingRateTimestamp
              previousSettlementRates :=
                alInsert s.previousSettlementRates sym obs.fundingRate }) := by
  obtain ⟨hf1, hf2⟩ := canSendAlert_map_frame cfg s nowHour
  simp only [processSettlement, hbase, hca, hok]
  rw [if_pos hts]
  simp [hf1, hf2]

/-- C8: the limiter permits an alert iff the (window-reset-adjusted)
hourly count is strictly below `MAX_ALERTS_PER_HOUR`; an advanced hour
resets the counter and window before the check; a granted qualifying
settlement alert increments the counter and is returned; a denied
qualifying settlement alert still updates the symbol's tracking state
but returns no alert record. -/
theorem claim_C8 (cfg : FundingRateConfig) (nowHour : Nat)
    (td : List (String × TickerData)) (sym : String) (obs : SettlementObs)
    (s : MonitorState) (prev : ℚ)
    (hbase : alGet s.previousSettlementRates sym = some prev)
    (hts : alGetD s.lastSettlementTimestamps sym 0 < obs.fundingRateTimestamp)
    (hflip : prev > 0 ∧ obs.fundingRate < 0)
    (hfull : sym ∈ cfg.fullAlertSymbols)
    (hsc : cfg.alertOnSignChange = true) :
    ((canSendAlert cfg s nowHour).1 = true ↔
        (if s.hourStart < nowHour then 0 else s.alertCountThisHour) <
          cfg.maxAlertsPerHour) ∧
      (s.hourStart < nowHour →
        (canSendAlert cfg s nowHour).2.alertCountThisHour = 0 ∧
          (canSendAlert cfg s nowHour).2.hourStart = nowHour) ∧
      ((canSendAlert cfg s nowHour).1 = false →
        checkSettlements cfg nowHour [(sym, obs)] td s =
          ([], { (canSendAlert cfg s nowHour).2 with
                 lastSettlementTimestamps :=
                   alInsert s.lastSettlementTimestamps sym obs.fundingRateTimestamp
                 previousSettlementRates :=
                   alInsert s.previousSettlementRates sym obs.fundingRate })) ∧
      ((canSendAlert cfg s nowHour).1 = true →
        (checkSettlements cfg nowHour [(sym, obs)] td s).2.alertCountThisHour =
            (canSendAlert cfg s nowHour).2.alertCountThisHour + 1 ∧
          ∃ a, (checkSettlements cfg nowHour [(sym, obs)] td s).1 = [a] ∧
            a.alertType = "sign_change") := by
  have hc : cfg.fullAlertSymbols.contains sym = true := by simpa using hfull
  have hca := createSettlementAlert_eq cfg sym obs.fundingRate prev
    obs.fundingRateTimestamp (alGetD td sym {}) hc hsc
  rw [if_pos (Or.inl hflip)] at hca
  refine ⟨?_, ?_, ?_, ?_⟩
  · unfold canSendAlert resetHourlyCountIfNeeded
    split
    · simp
    · simp
  · intro hadv
    unfold canSendAlert resetHourlyCountIfNeeded
    rw [if_pos hadv]
    exact ⟨rfl, rfl⟩
  · intro hden
    have hps := processSettlement_denied cfg nowHour td sym obs s prev _ hbase hts
      hca hden
    simp [checkSettlements, hps]
  · intro hok
    have hps := processSettlement_granted cfg nowHour td sym obs s prev _ hbase hts
      hca hok
    refine ⟨by simp [checkSettlements, hps], ?_⟩
    have h1 : (checkSettlements cfg nowHour [(sym, obs)] td s).1 =
        [{ symbol := sym
           fundingRate := obs.fundingRate
           prevFundingRate := some prev
           rateChange := some (obs.fundingRate - prev)
           alertType := "sign_change"
           lastPrice := (alGetD td sym {}).lastPrice
           settlementTimestamp := obs.fundingRateTimestamp
           fundingInterval := (alGetD td sym {}).fundingIntervalHours
           prevFundingInterval :=
             some ((alGetD td sym {}).prevFundingIntervalHours.getD
               (alGetD td sym {}).fundingIntervalHours)
           volume24h := (alGetD td sym {}).volume24h }] := by
      simp [checkSettlements, hps]
    exact ⟨_, h1, rfl⟩

/-- C8 witness: with `MAX_ALERTS_PER_HOUR = 2`: the permit decision
matches the counter bound; advancing the hour resets counter and
window; at count 2 a qualifying flip is denied yet tracking state still
updates with no alert returned; at count 1 it is granted, returned, and
counted. -/
theorem claim_C8_witness :
    ((canSendAlert (FundingRateConfig.mk ["BTCUSDT"] true true 2 2)
          (MonitorState.mk [("BTCUSDT", 100)] [("BTCUSDT", 2)] [] 2 5) 5).1 = true ↔
        (if (5 : Nat) < 5 then 0 else 2) < 2) ∧
      ((canSendAlert (FundingRateConfig.mk ["BTCUSDT"] true true 2 2)
            (MonitorState.mk [("BTCUSDT", 100)] [("BTCUSDT", 2)] [] 2 5)
            6).2.alertCountThisHour = 0 ∧
        (canSendAlert (FundingRateConfig.mk ["BTCUSDT"] true true 2 2)
            (MonitorState.mk [("BTCUSDT", 100)] [("BTCUSDT", 2)] [] 2 5)
            6).2.hourStart = 6) ∧
      checkSettlements (FundingRateConfig.mk ["BTCUSDT"] true true 2 2) 5
          [("BTCUSDT", SettlementObs.mk (-1) 200)] []
          (MonitorState.mk [("BTCUSDT", 100)] [("BTCUSDT", 2)] [] 2 5) =
        ([], { (canSendAlert (FundingRateConfig.mk ["BTCUSDT"] true true 2 2)
                  (MonitorState.mk [("BTCUSDT", 100)] [("BTCUSDT", 2)] [] 2 5)
                  5).2 with
               lastSettlementTimestamps :=
                 alInsert (MonitorState.mk [("BTCUSDT", 100)] [("BTCUSDT", 2)] [] 2
                   5).lastSettlementTimestamps "BTCUSDT"
                   (SettlementObs.mk (-1) 200).fundingRateTimestamp
               previousSettlementRates :=
                 alInsert (MonitorState.mk [("BTCUSDT", 100)] [("BTCUSDT", 2)] [] 2
                   5).previousSettlementRates "BTCUSDT"
                   (SettlementObs.mk (-1) 200).fundingRate }) ∧
      (checkSettlements (FundingRateConfig.mk ["BTCUSDT"] true true 2 2) 5
          [("BTCUSDT", SettlementObs.mk (-1) 200)] []
          (MonitorState.mk [("BTCUSDT", 100)] [("BTCUSDT", 2)] [] 1
            5)).2.alertCountThisHour =
          (canSendAlert (FundingRateConfig.mk ["BTCUSDT"] true true 2 2)
            (MonitorState.mk [("BTCUSDT", 100)] [("BTCUSDT", 2)] [] 1
              5) 5).2.alertCountThisHour + 1 ∧
      ∃ a, (checkSettlements (FundingRateConfig.mk ["BTCUSDT"] true true 2 2) 5
          [("BTCUSDT", SettlementObs.mk (-1) 200)] []
          (MonitorState.mk [("BTCUSDT", 100)] [("BTCUSDT", 2)] [] 1 5)).1 = [a] ∧
        a.alertType = "sign_change" :=
  ⟨(claim_C8 (FundingRateConfig.mk ["BTCUSDT"] true true 2 2) 5 [] "BTCUSDT"
      (SettlementObs.mk (-1) 200)
      (MonitorState.mk [("BTCUSDT", 100)] [("BTCUSDT", 2)] [] 2 5) 2
      (by decide) (by decide) ⟨by decide, by decide⟩ (by decide) rfl).1,
   (claim_C8 (FundingRateConfig.mk ["BTCUSDT"] true true 2 2) 6 [] "BTCUSDT"
      (SettlementObs.mk (-1) 200)
      (MonitorState.mk [("BTCUSDT", 100)] [("BTCUSDT", 2)] [] 2 5) 2
      (by decide) (by decide) ⟨by decide, by decide⟩ (by decide) rfl).2.1
      (by decide),
   (claim_C8 (FundingRateConfig.mk ["BTCUSDT"] true true 2 2) 5 [] "BTCUSDT"
      (SettlementObs.mk (-1) 200)
      (MonitorState.mk [("BTCUSDT", 100)] [("BTCUSDT", 2)] [] 2 5) 2
      (by decide) (by decide) ⟨by decide, by decide⟩ (by decide) rfl).2.2.1
      (by decide),
   (claim_C8 (FundingRateConfig.mk ["BTCUSDT"] true true 2 2) 5 [] "BTCUSDT"
      (SettlementObs.mk (-1) 200)
      (MonitorState.mk [("BTCUSDT", 100)] [("BTCUSDT", 2)] [] 1 5) 2
      (by decide) (by decide) ⟨by decide, by decide⟩ (by decide) rfl).2.2.2
      (by decide)⟩

/-- C9 (amended): saving then loading into a fresh engine reproduces the
timestamps and rates maps exactly; the persisted schema holds no
predicted-alert cooldown entries, so a fresh engine starts with an empty
cooldown map. -/
theorem claim_C9_amended (s : MonitorState) (nowHour : Nat) :
    (newMonitor nowHour (saveState s)).lastSettlementTimestamps =
        s.lastSettlementTimestamps ∧
      (newMonitor nowHour (saveState s)).previousSettlementRates =
        s.previousSettlementRates ∧
      (newMonitor nowHour (saveState s)).alertedPredictedRates = [] :=
  ⟨rfl, rfl, rfl⟩

/-- C9 counterexample: a predicted-alert cooldown entry (`BTCUSDT ↦ 3`)
present before a save does not survive the save/load round trip into a
fresh engine — `_save_state` writes only the timestamps and rates maps
and `_load_state` reads only those. -/
theorem claim_C9_counterexample :
    (MonitorState.mk [("BTCUSDT", 100)] [("BTCUSDT", 2)] [("BTCUSDT", 3)] 0
        0).alertedPredictedRates ≠
      (newMonitor 0 (saveState (MonitorState.mk [("BTCUSDT", 100)]
        [("BTCUSDT", 2)] [("BTCUSDT", 3)] 0 0))).alertedPredictedRates := by
  decide

/-- C1: the divergence witnessed concretely. A symbol (`ETHUSDT`)
outside the full-alert set holds an active predicted-alert cooldown
entry (rate 3, threshold 2) and receives a genuine new settlement
(timestamp 200 > stored 100). The settlement is processed — tracking is
updated — yet the driver clears cooldown state only for symbols of
returned alert records, and a non-full-alert symbol never yields one; so
the cooldown entry survives and the next extreme predicted rate for the
symbol (3 again) is suppressed instead of alerting as first-time-extreme. -/
theorem claim_C1_bug :
    (settlementPhase (FundingRateConfig.mk ["BTCUSDT"] true true 2 200) 0
        [("ETHUSDT", SettlementObs.mk (-1) 200)] []
        (MonitorState.mk [("ETHUSDT", 100)] [("ETHUSDT", 1)] [("ETHUSDT", 3)] 0
          0)).2 =
        MonitorState.mk [("ETHUSDT", 200)] [("ETHUSDT", -1)] [("ETHUSDT", 3)] 0 0 ∧
      (checkPredictedRates (FundingRateConfig.mk ["BTCUSDT"] true true 2 200) 0
        [("ETHUSDT", TickerData.mk 3 8 none 0 0 0)]
        (MonitorState.mk [("ETHUSDT", 200)] [("ETHUSDT", -1)] [("ETHUSDT", 3)] 0
          0)).1 = [] := by
  constructor
  · decide
  · have hsig : rateChangedSignificantly 3 3 = false := by
      rw [rateChangedSignificantly, if_neg (by norm_num)]
      norm_num
    have hshould : shouldAlertForRate
        (MonitorState.mk [("ETHUSDT", 200)] [("ETHUSDT", -1)] [("ETHUSDT", 3)] 0 0)
        "ETHUSDT" 3 = false := by
      simp [shouldAlertForRate, alGet, rateFlippedSign, hsig]
    simp [checkPredictedRates, checkPredictedRatesLoop, processPredicted, hshould]
    split <;> rfl
